import Mathlib

/-!
Verification development for the DailyDraft trivia engine.

This file gives a shallow embedding of the core engine
(`game_logic.py`, with the data loader `load_nfl_data.py` treated as the
external Normalizer collaborator) and proves/refutes the frozen claims
about it.

Modelling conventions:
* Tabular data (pandas DataFrames) is modelled by `Df`: a list of column
  names plus a list of rows, a row being an association list from column
  name to `Val` (a cell value: null / rational number / string).
  Missing cells read as `Val.null` (pandas NaN/None).
* Python floats are modelled by exact rationals `ℚ`; `round` is modelled
  by exact round-half-to-even (`pyRound`), and the float literal `0.0001`
  by the rational `1/10000`.
* The process-wide Mersenne Twister is modelled abstractly: `mt : ℤ → ℕ → ℕ`
  maps a seed to a stream of draws, and an `Rng` is a stream plus a cursor.
  Each primitive call (`randint`, `choice`) consumes one draw; all claims
  proved here are independent of the concrete stream contents, so this
  abstraction is faithful for them.
* The external data source (`load_data_for_year` and the `nfl_data_py`
  provider behind it) is an arbitrary function `Loader` which may fail
  (`Except`), exactly as `get_data_for_year_cached` assumes.
-/

/-- A cell value of a table: pandas NaN/None, a numeric value, or a string. -/
inductive Val where
  | null : Val
  | num  : ℚ → Val
  | str  : String → Val
deriving DecidableEq, Repr

/-- A row: association list from column name to value. -/
abbrev Row := List (String × Val)

/-- Read a cell; a column absent from the row reads as null (pandas NaN). -/
def rowGet (r : Row) (c : String) : Val :=
  match r.find? (fun p => p.1 = c) with
  | some p => p.2
  | none => Val.null

/-- Write a cell (in-row column assignment). -/
def rowSet (r : Row) (c : String) (v : Val) : Row :=
  (c, v) :: r.filter (fun p => p.1 ≠ c)

/-- A DataFrame: column list plus row list. -/
structure Df where
  cols : List String
  rows : List Row
deriving DecidableEq, Repr

/-- pandas `df.empty`: true when either axis has length 0. -/
def Df.isEmpty (df : Df) : Bool :=
  df.rows.isEmpty || df.cols.isEmpty

/-- An empty `pd.DataFrame()`. -/
def emptyDf : Df := ⟨[], []⟩

/-- Row filtering (`df[mask]`): keeps the column list. -/
def dfFilter (df : Df) (p : Row → Bool) : Df :=
  { cols := df.cols, rows := df.rows.filter p }

/-- The four tables returned by `load_data_for_year`:
(rosters, stats_with_position, seasonal_snap_counts, raw_snap_counts). -/
abbrev Df4 := Df × Df × Df × Df

/-- Four empty DataFrames, the degraded dataset. -/
def emptyDf4 : Df4 := (emptyDf, emptyDf, emptyDf, emptyDf)

/-- The external Normalizer (`load_data_for_year`): for a year, either a
data tuple or a raised exception (message). -/
abbrev Loader := ℤ → Except String Df4

/-- The process-lifetime data cache (`data_cache` dict), keyed by year. -/
abbrev Cache := List (ℤ × Df4)

/-- Dictionary lookup `data_cache[year]` / `year in data_cache`. -/
def cacheLookup : Cache → ℤ → Option Df4
  | [], _ => none
  | (y', v) :: rest, y => if y = y' then some v else cacheLookup rest y

/-- The value `get_data_for_year_cached` stores on a cache miss: the loader
result, collapsed to four empty tables when it raised or when its roster
or stats table is empty (game_logic.py lines 69-78). -/
def storeVal (l : Loader) (y : ℤ) : Df4 :=
  match l y with
  | .error _ => emptyDf4
  | .ok t => if t.1.isEmpty || t.2.1.isEmpty then emptyDf4 else t

/-- The re-validation applied to the cached value before returning it
(game_logic.py lines 81-85). -/
def postVal (t : Df4) : Df4 :=
  if t.1.isEmpty || t.2.1.isEmpty then emptyDf4 else t

/-- Embeds `get_data_for_year_cached(year, data_cache)`: on a miss, invoke the
loader (guarded by try/except) and store the collapsed value; then return
the cached value, re-validated.  Returns the value and the updated cache. -/
def get_data_for_year_cached (l : Loader) (y : ℤ) (c : Cache) : Df4 × Cache :=
  match cacheLookup c y with
  | some t => (postVal t, c)
  | none =>
    let s := storeVal l y
    (postVal s, (y, s) :: c)

/-! ## Numeric coercion (`pd.to_numeric(..., errors='coerce')` and `float`) -/

/-- Parse a list of decimal digits. -/
def parseDigits : List Char → Option ℕ
  | [] => none
  | cs =>
    if cs.all Char.isDigit then
      some (cs.foldl (fun a ch => a * 10 + (ch.toNat - 48)) 0)
    else none

/-- Model of Python `float(s)` on a decimal string: optional sign, integer
part, optional fractional part.  (Exotic float syntax — exponents, inf,
nan, whitespace — is out of scope; no claim depends on it.) -/
def parseFloatQ (s : String) : Option ℚ :=
  let cs := s.toList
  let signAndBody : ℚ × List Char :=
    match cs with
    | '-' :: rest => (-1, rest)
    | '+' :: rest => (1, rest)
    | _ => (1, cs)
  let sign := signAndBody.1
  let body := signAndBody.2
  match body.span (fun ch => ch ≠ '.') with
  | (intPart, []) => (parseDigits intPart).map (fun n => sign * n)
  | (intPart, _dot :: fracPart) =>
    if intPart.isEmpty && fracPart.isEmpty then none
    else
      match intPart, fracPart with
      | [], f =>
        (parseDigits f).map (fun n => sign * n / (10 : ℚ) ^ f.length)
      | i, [] => (parseDigits i).map (fun n => sign * n)
      | i, f =>
        match parseDigits i, parseDigits f with
        | some ni, some nf => some (sign * (ni + nf / (10 : ℚ) ^ f.length))
        | _, _ => none

/-- Numeric coercion of a cell (`pd.to_numeric(v, errors='coerce')`):
numbers pass through, numeric strings parse, everything else becomes
missing. -/
def toNumeric : Val → Option ℚ
  | .null => none
  | .num q => some q
  | .str s => parseFloatQ s

/-! ## Leader Resolver (`get_stat_leader`, game_logic.py lines 88-113) -/

/-- Embeds `df_copy[stat_column] = pd.to_numeric(df_copy[stat_column], errors='coerce')`:
replace the column by its numeric coercion (failures become null). -/
def coerceCol (df : Df) (col : String) : Df :=
  { cols := df.cols
    rows := df.rows.map (fun r =>
      rowSet r col (match toNumeric (rowGet r col) with
                    | some q => Val.num q
                    | none => Val.null)) }

/-- Embeds `df_copy.dropna(subset=[col])`: keep rows whose `col` cell is numeric. -/
def dropnaCol (df : Df) (col : String) : Df :=
  { cols := df.cols
    rows := df.rows.filter (fun r =>
      match rowGet r col with
      | Val.num _ => true
      | _ => false) }

/-- Read a numeric cell, defaulting to 0 (used only on coerced columns). -/
def asNum : Val → ℚ
  | .num q => q
  | _ => 0

/-- Embeds `idxmax` plus row extraction: the first row attaining the maximum of the
(already coerced) column; `none` on an empty table. -/
def leaderOf (df : Df) (col : String) : Option (Val × ℚ) :=
  match df.rows with
  | [] => none
  | r0 :: rest =>
    let best := rest.foldl
      (fun b r => if asNum (rowGet r col) > asNum (rowGet b col) then r else b) r0
    some (rowGet best "player_id", asNum (rowGet best col))

/-- Embeds `get_stat_leader(stat_df, stat_column)` as a pure function: None when
the table is empty or lacks the stat or player_id column; otherwise the
first maximal row of the coerced, NaN-dropped column. -/
def get_stat_leader (df : Df) (col : String) : Option (Val × ℚ) :=
  if df.isEmpty || !df.cols.contains col || !df.cols.contains "player_id" then
    none
  else
    leaderOf (dropnaCol (coerceCol df col) col) col

/-- Embeds `get_stat_leader` with the object store made explicit, to state the
frame property.  The heap is a list of tables; `r` is the caller's
reference (index) to `stat_df`.  Mirroring the source: `stat_df.copy()`
allocates a fresh table at the end of the heap; the column assignment
writes that fresh slot in place; `dropna` allocates another fresh table
(the local name is rebound, not written through); the result is computed
from the latter. -/
def get_stat_leader_heap (heap : List Df) (r : ℕ) (col : String) :
    Option (Val × ℚ) × List Df :=
  let df := heap.getD r emptyDf
  if df.isEmpty || !df.cols.contains col || !df.cols.contains "player_id" then
    (none, heap)
  else
    let cIdx := heap.length
    let h1 := heap ++ [df]
    let coerced := coerceCol df col
    let h2 := h1.set cIdx coerced
    let dropped := dropnaCol coerced col
    let h3 := h2 ++ [dropped]
    (leaderOf dropped col, h3)

/-! ## Scoring Engine (`calculate_score_emojis_and_points`, lines 211-252) -/

def MAX_POINTS_PER_QUESTION : ℤ := 10000

/-- The threshold ladder (game_logic.py lines 24-31), already in the
descending key order that `sorted(..., reverse=True)` produces.  The float
literal `0.0001` is modelled by the exact rational `1/10000`. -/
def EMOJI_THRESHOLDS : List (ℚ × String) :=
  [ (100, "🟩🟩🟩🟩🟩"),
    (80, "🟩🟩🟩🟩🟨"),
    (60, "🟩🟩🟩🟨⬛"),
    (40, "🟩🟩🟨⬛⬛"),
    (20, "🟩🟨⬛⬛⬛"),
    (1/10000, "🟨⬛⬛⬛⬛") ]

/-- Python `round` to an integer: exact round-half-to-even. -/
def pyRound (x : ℚ) : ℤ :=
  if x - ⌊x⌋ < 1/2 then ⌊x⌋
  else if 1/2 < x - ⌊x⌋ then ⌊x⌋ + 1
  else if ⌊x⌋ % 2 = 0 then ⌊x⌋ else ⌊x⌋ + 1

/-- The clamped percentage `min(max(0.0, guess / correct * 100.0), 100.0)`
(game_logic.py line 238). -/
def pctOf (g c : ℚ) : ℚ := min (max 0 (g / c * 100)) 100

/-- The emoji-selection loop (lines 242-246): first ladder entry whose
threshold is at most the percentage, defaulting to five black squares. -/
def tierLoop (pct : ℚ) : String :=
  match EMOJI_THRESHOLDS.find? (fun p => decide (p.1 ≤ pct)) with
  | some p => p.2
  | none => "⬛⬛⬛⬛⬛"

/-- The numeric core of the scorer (lines 228-252), after both inputs have
been coerced to numbers. -/
def calcScore (g c : ℚ) : String × ℤ :=
  let pp : ℚ × ℤ :=
    if c = 0 then
      if g = 0 then (100, MAX_POINTS_PER_QUESTION) else (0, 0)
    else
      (pctOf g c, pyRound (pctOf g c * (MAX_POINTS_PER_QUESTION / 100 : ℚ)))
  let pct := pp.1
  let points := pp.2
  let emojis := tierLoop pct
  let emojis := if pct = 0 ∧ g = 0 ∧ c ≠ 0 then "⬛⬛⬛⬛⬛" else emojis
  (emojis, points)

/-- Embeds `calculate_score_emojis_and_points(guess, correct)` on raw inputs:
a null or unparsable guess coerces to 0; an unparsable correct value is
the hard-failure branch (line 226); otherwise the numeric core runs. -/
def calculate_score_emojis_and_points (gi ci : Val) : String × ℤ :=
  let g : ℚ :=
    match gi with
    | .null => 0
    | .num q => q
    | .str s => (parseFloatQ s).getD 0
  let cParsed : Option ℚ :=
    match ci with
    | .null => some 0
    | .num q => some q
    | .str s => parseFloatQ s
  match cParsed with
  | none =>
    if g ≠ 0 then ("⬛⬛⬛⬛⬛", 0) else ("🟩🟩🟩🟩🟩", MAX_POINTS_PER_QUESTION)
  | some c => calcScore g c

/-! ## Pseudorandom source -/

/-- The process-wide PRNG state: a stream of draws and a cursor. -/
structure Rng where
  stream : ℕ → ℕ
  idx : ℕ

/-- Draw the next raw value. -/
def rngNext (r : Rng) : ℕ × Rng :=
  (r.stream r.idx, { r with idx := r.idx + 1 })

/-- Embeds `random.randint(lo, hi)` (both ends inclusive; callers guarantee
`lo ≤ hi`): one draw, mapped into the range. -/
def randint (lo hi : ℤ) (r : Rng) : ℤ × Rng :=
  let (n, r') := rngNext r
  (lo + (n : ℤ) % (hi - lo + 1), r')

/-- Embeds `random.choice(xs)` (callers guarantee `xs ≠ []`): one draw, used as an
index. -/
def rchoice (xs : List String) (r : Rng) : String × Rng :=
  let (n, r') := rngNext r
  (xs.getD (n % xs.length) "", r')

/-! ## Question Generator (`generate_questions_for_round`, lines 116-208) -/

def POSITIONS_FOR_DRAFT : List String := ["QB", "WR1", "WR2", "RB", "TE"]

def STAT_CATEGORIES : List (String × List String) :=
  [ ("QB", ["passing_yards", "passing_tds", "completions", "attempts"]),
    ("WR", ["receptions", "receiving_yards", "receiving_tds", "targets"]),
    ("RB", ["rushing_yards", "rushing_tds", "carries", "receptions"]),
    ("TE", ["receptions", "receiving_yards", "receiving_tds", "targets"]) ]

def MIN_YEAR : ℤ := 1999
def MAX_YEAR : ℤ := 2023

/-- Embeds `dict.get` on an association list with a default. -/
def alistGet (xs : List (String × List String)) (k : String) : List String :=
  match xs.find? (fun p => p.1 = k) with
  | some p => p.2
  | none => []

/-- Embeds `dict.get` returning an Option (`position_filter_map.get`). -/
def alistGetOpt (xs : List (String × String)) (k : String) : Option String :=
  (xs.find? (fun p => p.1 = k)).map (fun p => p.2)

def position_filter_map : List (String × String) :=
  [("QB", "QB"), ("RB", "RB"), ("WR", "WR"), ("TE", "TE")]

/-- Embeds `slot.rstrip('12')`: strip trailing characters drawn from {'1','2'}. -/
def rstrip12 (s : String) : String :=
  ⟨(s.toList.reverse.dropWhile (fun ch => ch = '1' || ch = '2')).reverse⟩

/-- Python `min` on two integers, spelled out so the kernel can run it. -/
def intMin (a b : ℤ) : ℤ := if a ≤ b then a else b

/-- Embeds `select_random_year_for_question` (lines 45-60): the upper bound is the
last completed season given the current UTC year/month; a degenerate range
returns the bound without drawing.  The `use_seed` parameter is unused in
the source; it is kept for fidelity. -/
def select_random_year_for_question (nowYear : ℤ) (nowMonth : ℕ)
    (_useSeed : Bool) (r : Rng) : ℤ × Rng :=
  let actualMaxYear := if nowMonth < 9 then intMin MAX_YEAR (nowYear - 1)
                       else intMin MAX_YEAR nowYear
  if MIN_YEAR > actualMaxYear then (actualMaxYear, r)
  else randint MIN_YEAR actualMaxYear r

/-- The bounded WR retry loop (lines 162-168): draw a candidate; accept it
if its (year, stat) pair is fresh; otherwise retry, at most `fuel` times. -/
def pickWRStat (year : ℤ) (menu : List String) (used : List (ℤ × String)) :
    ℕ → Rng → Option String × Rng
  | 0, r => (none, r)
  | fuel + 1, r =>
    let cr := rchoice menu r
    if (year, cr.1) ∈ used then pickWRStat year menu used fuel cr.2
    else (some cr.1, cr.2)

/-- A generated question record (the dict built at lines 136-145/197-206). -/
structure Question where
  position_slot : String
  question_text : String
  stat_category : Option String
  year : ℤ
  correct_player_id : Option Val
  correct_player_name : Val
  correct_stat_value : Option ℚ
  data_issue : Bool
deriving DecidableEq, Repr

/-- The record emitted when the year's stats are empty or lack a position
column (lines 136-145). -/
def dataIssueQ (slot : String) (year : ℤ) : Question :=
  { position_slot := slot
    question_text := "Data unavailable for " ++ slot ++ " (Year: " ++ toString year ++ ")."
    stat_category := none
    year := year
    correct_player_id := none
    correct_player_name := Val.null
    correct_stat_value := none
    data_issue := true }

/-- The leader computation for a slot (lines 179-186): filter the stats to
the resolved position and run the Leader Resolver on the chosen statistic. -/
def leaderForSlot (statsDf : Df) (actualPosition : String) (sel : String) :
    Option (Val × ℚ) :=
  match alistGetOpt position_filter_map actualPosition with
  | none => none
  | some targetPos =>
    if statsDf.isEmpty then none
    else
      let relevant := dfFilter statsDf (fun r => rowGet r "position" = Val.str targetPos)
      if relevant.isEmpty then none
      else get_stat_leader relevant sel

/-- The leader's display name from the roster (lines 189-194): "Unknown"
unless the roster has the needed columns and a row for the leader's id. -/
def leaderName (rostersDf : Df) (leaderId : Val) : Val :=
  if !rostersDf.isEmpty && rostersDf.cols.contains "player_id"
      && rostersDf.cols.contains "player_name" then
    match (dfFilter rostersDf (fun r => rowGet r "player_id" = leaderId)).rows with
    | r0 :: _ => rowGet r0 "player_name"
    | [] => Val.str "Unknown"
  else Val.str "Unknown"

/-- Output of one slot's body after year selection and data loading:
updated RNG, updated WR (year, stat) pair set, the appended records (one,
or none when the statistic menu is empty), and whether the WR fallback
(`selected_stat is None` after the loop) fired. -/
structure SlotOut where
  rng : Rng
  used : List (ℤ × String)
  qs : List Question
  fallback : Bool

/-- Embeds `selected_stat.replace('_', ' ')`: replace each underscore by a space
(spelled as a character map, which coincides with `str.replace` for a
single-character pattern). -/
def spacify (s : String) : String :=
  ⟨s.toList.map (fun ch => if ch = '_' then ' ' else ch)⟩

/-- The non-degraded question record for a slot (lines 175-206), given the
chosen statistic: prompt text, leader resolution, and roster name lookup.
`has_data_issue` is exactly "no leader resolved". -/
def mkMainQ (slot : String) (year : ℤ) (dfs : Df4) (sel : String) : Question :=
  { position_slot := slot
    question_text := "Who had the most " ++ spacify sel
      ++ " in " ++ toString year ++ " for " ++ rstrip12 slot ++ "s?"
    stat_category := some sel
    year := year
    correct_player_id := (leaderForSlot dfs.2.1 (rstrip12 slot) sel).map (fun li => li.1)
    correct_player_name :=
      match leaderForSlot dfs.2.1 (rstrip12 slot) sel with
      | some li => leaderName dfs.1 li.1
      | none => Val.str "N/A"
    correct_stat_value := (leaderForSlot dfs.2.1 (rstrip12 slot) sel).map (fun li => li.2)
    data_issue := (leaderForSlot dfs.2.1 (rstrip12 slot) sel).isNone }

/-- The per-slot body (lines 134-206), given the slot's year and loaded
dataset.  Pure in the cache: the caller supplies the loaded tables. -/
def slotCore (slot : String) (year : ℤ) (dfs : Df4) (r1 : Rng)
    (used : List (ℤ × String)) : SlotOut :=
  if dfs.2.1.isEmpty || !dfs.2.1.cols.contains "position" then
    ⟨r1, used, [dataIssueQ slot year], false⟩
  else
    let actualPosition := rstrip12 slot
    let possibleStats := alistGet STAT_CATEGORIES actualPosition
    if possibleStats.isEmpty then ⟨r1, used, [], false⟩
    else if actualPosition = "WR" then
      match pickWRStat year possibleStats used (3 * possibleStats.length) r1 with
      | (some s, r2) => ⟨r2, (year, s) :: used, [mkMainQ slot year dfs s], false⟩
      | (none, r2) =>
        let cr := rchoice possibleStats r2
        ⟨cr.2, used, [mkMainQ slot year dfs cr.1], true⟩
    else
      let cr := rchoice possibleStats r1
      ⟨cr.2, used, [mkMainQ slot year dfs cr.1], false⟩

/-- Generator state threaded through the slot loop. -/
structure GState where
  rng : Rng
  cache : Cache
  used : List (ℤ × String)

/-- One full slot step (lines 128-206): select the year, load the year's
data through the cache, then run the slot body. -/
def stepSlot (l : Loader) (nowYear : ℤ) (nowMonth : ℕ) (dailyMode : Bool)
    (st : GState) (slot : String) : GState × List Question × Bool :=
  let yr := select_random_year_for_question nowYear nowMonth dailyMode st.rng
  let year := yr.1
  let r1 := yr.2
  let dc := get_data_for_year_cached l year st.cache
  let dfs := dc.1
  let c1 := dc.2
  let so := slotCore slot year dfs r1 st.used
  (⟨so.rng, c1, so.used⟩, so.qs, so.fallback)

/-- The slot loop: fold `stepSlot` over the slot list, collecting each
emitted record tagged with its slot's WR-fallback flag. -/
def runSlots (l : Loader) (nowYear : ℤ) (nowMonth : ℕ) (dailyMode : Bool) :
    GState → List String → GState × List (Question × Bool)
  | st, [] => (st, [])
  | st, slot :: rest =>
    let so := stepSlot l nowYear nowMonth dailyMode st slot
    let rec0 := runSlots l nowYear nowMonth dailyMode so.1 rest
    (rec0.1, so.2.1.map (fun q => (q, so.2.2)) ++ rec0.2)

/-- Embeds `generate_questions_for_round` with the per-slot WR-fallback flags kept
alongside each record (the flags are internal bookkeeping of the source's
retry loop, surfaced here so the retry property can be stated). -/
def generate_run (mt : ℤ → ℕ → ℕ) (l : Loader) (nowYear : ℤ) (nowMonth : ℕ)
    (cache : Cache) (rng : Rng) (dailyMode : Bool) (dailySeed : Option ℤ) :
    List (Question × Bool) × Cache :=
  let r0 : Rng :=
    if dailyMode then
      match dailySeed with
      | some s => ⟨mt s, 0⟩
      | none => rng
    else rng
  let out := runSlots l nowYear nowMonth dailyMode ⟨r0, cache, []⟩ POSITIONS_FOR_DRAFT
  (out.2, out.1.cache)

/-- Embeds `generate_questions_for_round(data_cache, daily_mode, daily_seed)`:
the question list and the updated cache.  `mt` is the seeding function of
the process PRNG, `rng` its state on entry, `nowYear`/`nowMonth` the
current UTC date. -/
def generate_questions_for_round (mt : ℤ → ℕ → ℕ) (l : Loader)
    (nowYear : ℤ) (nowMonth : ℕ) (cache : Cache) (rng : Rng)
    (dailyMode : Bool) (dailySeed : Option ℤ) : List Question × Cache :=
  let out := generate_run mt l nowYear nowMonth cache rng dailyMode dailySeed
  (out.1.map (fun p => p.1), out.2)

/-! ## Eligibility Filter (`get_eligible_players_for_autocomplete`, lines 279-359) -/

/-- Embeds `pd.merge(left, right, on=key, how='left', suffixes=('', sfx))`:
each left row is joined with every right row agreeing on `key`; right
columns colliding with left ones are renamed with the suffix; a left row
with no partner keeps null right columns. -/
def leftJoin (left right : Df) (key : String) (sfx : String) : Df :=
  let rightCols := right.cols.filter (fun c => c ≠ key)
  let rename := fun c => if left.cols.contains c then c ++ sfx else c
  { cols := left.cols ++ rightCols.map rename
    rows := left.rows.flatMap (fun lr =>
      let partners := right.rows.filter (fun rr => rowGet rr key = rowGet lr key)
      match partners with
      | [] => [lr ++ rightCols.map (fun c => (rename c, Val.null))]
      | ps => ps.map (fun rr => lr ++ rightCols.map (fun c => (rename c, rowGet rr c)))) }

/-- Embeds `astype(str)` on a cell: stringify (nulls print as "nan").  The exact
rendering of numbers is immaterial to every claim; only that both join
sides are transformed alike matters. -/
def valAsStr : Val → Val
  | .str s => .str s
  | .num q => .str (toString q)
  | .null => .str "nan"

/-- Rewrite one column of every row. -/
def mapCol (df : Df) (c : String) (f : Val → Val) : Df :=
  { cols := df.cols
    rows := df.rows.map (fun r => rowSet r c (f (rowGet r c))) }

/-- Column projection `df[[c1, c2]]`.  (pandas raises KeyError when a
requested column is absent; the model keeps only the present ones — the
absent column then reads as null downstream, and the claims below concern
the non-raising executions.) -/
def dfSelect (df : Df) (wanted : List String) : Df :=
  let kept := wanted.filter (fun c => df.cols.contains c)
  { cols := kept
    rows := df.rows.map (fun r => kept.map (fun c => (c, rowGet r c))) }

/-- Embeds `df[col].fillna(0)` assigned back to the column. -/
def fillnaCol (df : Df) (c : String) : Df :=
  { cols := if df.cols.contains c then df.cols else df.cols ++ [c]
    rows := df.rows.map (fun r =>
      rowSet r c (match rowGet r c with | Val.null => Val.num 0 | v => v)) }

/-- Scalar column assignment `df[col] = 0`. -/
def setColAll (df : Df) (c : String) (v : Val) : Df :=
  { cols := if df.cols.contains c then df.cols else df.cols ++ [c]
    rows := df.rows.map (fun r => rowSet r c v) }

/-- Embeds `df[col] = df.get(col, pd.Series(0)).fillna(0)` (lines 326/331/336).
When the column exists this is a fillna; when it is absent, the pandas
index alignment leaves 0/NaN values — both compare `> 0` as false, so the
model sets the column to 0, which is observationally identical for the
subsequent filter and for the returned (name, id) pairs. -/
def ensureOpp (df : Df) (c : String) : Df :=
  if df.cols.contains c then fillnaCol df c else setColAll df c (Val.num 0)

/-- Embeds `v > 0` on a cell: true only for positive numbers (pandas comparisons
of NaN with 0 are false). -/
def valPos : Val → Bool
  | .num q => decide (0 < q)
  | _ => false

/-- Embeds `drop_duplicates(subset=['player_id'], keep='first')`: keep each row
whose key was not seen before it. -/
def dedupRows (key : Row → Val) : List Row → List Val → List Row
  | [], _ => []
  | r :: rest, seen =>
    if key r ∈ seen then dedupRows key rest seen
    else r :: dedupRows key rest (key r :: seen)

/-- A total comparison on cells used for `sort_values(by='player_name')`:
numbers (by value), then strings (lexicographic), then nulls — pandas
sorts homogeneous string columns lexicographically and places NaN last;
on mixed-type columns pandas raises, which the total model smooths over. -/
def valLe : Val → Val → Bool
  | .num a, .num b => decide (a ≤ b)
  | .num _, _ => true
  | .str _, .num _ => false
  | .str a, .str b => decide (a ≤ b)
  | .str _, .null => true
  | .null, .null => true
  | .null, _ => false

/-- Embeds `sort_values(by=c)`: sort rows by the cell in column `c`. -/
def dfSortBy (df : Df) (c : String) : Df :=
  { cols := df.cols
    rows := df.rows.mergeSort (fun a b => valLe (rowGet a c) (rowGet b c)) }

/-- The merge-and-filter pipeline (lines 300-341): left-join the
position-scoped roster with the stats table (suffixing colliding stats
columns), then with the stringified snap counts, fill missing snap counts
with 0, and keep rows with a positive position-specific opportunity field
or positive snaps. -/
def activeCandidates (positionRoster statsDf snapsDf : Df)
    (positionLabel : String) : Df :=
  let pr1 :=
    if !statsDf.isEmpty && statsDf.cols.contains "player_id" then
      leftJoin positionRoster statsDf "player_id" "_stats"
    else positionRoster
  let pr2 :=
    if !snapsDf.isEmpty && snapsDf.cols.contains "player_id" then
      let snapsStr := mapCol snapsDf "player_id" valAsStr
      let prStr := mapCol pr1 "player_id" valAsStr
      fillnaCol (leftJoin prStr (dfSelect snapsStr ["player_id", "offense_snaps"])
        "player_id" "_y") "offense_snaps"
    else setColAll pr1 "offense_snaps" (Val.num 0)
  if positionLabel = "WR" || positionLabel = "TE" then
    dfFilter (ensureOpp pr2 "targets")
      (fun r => valPos (rowGet r "targets") || valPos (rowGet r "offense_snaps"))
  else if positionLabel = "RB" then
    dfFilter (ensureOpp pr2 "carries")
      (fun r => valPos (rowGet r "carries") || valPos (rowGet r "offense_snaps"))
  else if positionLabel = "QB" then
    dfFilter (ensureOpp pr2 "attempts")
      (fun r => valPos (rowGet r "attempts") || valPos (rowGet r "offense_snaps"))
  else pr2

/-- Embeds `get_eligible_players_for_autocomplete(position_label, year, data_cache)`:
the (display name, player id) list and the updated cache.  Sentinel
entries carry a null id.  (The in-place `astype(str)` the source applies
to the cached snap-count table at line 312 is not mirrored back into the
cache; no claim observes the cache after this call.) -/
def get_eligible_players_for_autocomplete (l : Loader) (positionLabel : String)
    (year : ℤ) (cache : Cache) : List (Val × Val) × Cache :=
  let dc := get_data_for_year_cached l year cache
  let rostersDf := dc.1.1
  let statsDf := dc.1.2.1
  let snapsDf := dc.1.2.2.1
  let c1 := dc.2
  if rostersDf.isEmpty || !rostersDf.cols.contains "player_id" then
    ([(Val.str "No roster data available", Val.null)], c1)
  else if !rostersDf.cols.contains "position" || !rostersDf.cols.contains "player_name" then
    ([(Val.str "Incomplete roster data", Val.null)], c1)
  else
    let positionRoster := dfFilter rostersDf (fun r => rowGet r "position" = Val.str positionLabel)
    if positionRoster.isEmpty then
      ([(Val.str ("No " ++ positionLabel ++ "s found in roster for " ++ toString year), Val.null)], c1)
    else
      let activePlayers := activeCandidates positionRoster statsDf snapsDf positionLabel
      if activePlayers.isEmpty then
        ([(Val.str ("No active " ++ positionLabel ++ "s found for " ++ toString year), Val.null)], c1)
      else
        let deduped : Df :=
          { cols := activePlayers.cols
            rows := dedupRows (fun r => rowGet r "player_id") activePlayers.rows [] }
        let sortedDf := dfSortBy deduped "player_name"
        let eligibleList := sortedDf.rows.map (fun r => (rowGet r "player_name", rowGet r "player_id"))
        (if eligibleList.isEmpty then
          [(Val.str ("No eligible " ++ positionLabel ++ "s after filtering for " ++ toString year), Val.null)]
        else eligibleList, c1)

/-! ## Helper lemmas: rounding -/

lemma pyRound_bounds (x : ℚ) :
    x - 1/2 ≤ (pyRound x : ℚ) ∧ (pyRound x : ℚ) ≤ x + 1/2 := by
  have h1 : (⌊x⌋ : ℚ) ≤ x := Int.floor_le x
  have h2 : x < ⌊x⌋ + 1 := Int.lt_floor_add_one x
  unfold pyRound
  split_ifs <;> constructor <;> push_cast <;> linarith

lemma pyRound_mono {x y : ℚ} (h : x ≤ y) : pyRound x ≤ pyRound y := by
  by_contra hlt
  push_neg at hlt
  have h1 := (pyRound_bounds x).2
  have h2 := (pyRound_bounds y).1
  have hi : (pyRound y : ℚ) + 1 ≤ (pyRound x : ℚ) := by
    exact_mod_cast Int.add_one_le_iff.mpr hlt
  have hxy : x = y := le_antisymm h (by linarith)
  rw [hxy] at hlt
  exact lt_irrefl _ hlt

lemma pyRound_intCast (n : ℤ) : pyRound (n : ℚ) = n := by
  unfold pyRound
  simp [Int.floor_intCast]

/-! ## Helper lemmas: percentage and tiers -/

lemma pctOf_nonneg (g c : ℚ) : 0 ≤ pctOf g c := by
  unfold pctOf
  exact le_min (le_max_left 0 _) (by norm_num)

lemma pctOf_le_100 (g c : ℚ) : pctOf g c ≤ 100 := min_le_right _ _

lemma pctOf_mono {c : ℚ} (hc : 0 < c) {g₁ g₂ : ℚ} (h : g₁ ≤ g₂) :
    pctOf g₁ c ≤ pctOf g₂ c := by
  unfold pctOf
  have : g₁ / c * 100 ≤ g₂ / c * 100 := by
    have := (div_le_div_iff_of_pos_right (c := c) hc).mpr h
    linarith
  exact min_le_min (max_le_max le_rfl this) le_rfl

lemma pctOf_of_ge {g c : ℚ} (hc : 0 < c) (h : c ≤ g) : pctOf g c = 100 := by
  unfold pctOf
  have h1 : (100 : ℚ) ≤ g / c * 100 := by
    have : (1 : ℚ) ≤ g / c := (one_le_div hc).mpr h
    linarith
  have h2 : (100 : ℚ) ≤ max 0 (g / c * 100) := le_trans h1 (le_max_right _ _)
  exact min_eq_right h2

lemma pctOf_self {c : ℚ} (hc : c ≠ 0) : pctOf c c = 100 := by
  unfold pctOf
  rw [div_self hc]
  norm_num

/-- The spec-side reading of the emoji ladder: the entry with the greatest
threshold among those at most the percentage (computed by a fold rather
than by the source's descending scan), five black squares if none
qualifies. -/
def bestEntry : List (ℚ × String) → Option (ℚ × String)
  | [] => none
  | e :: rest =>
    match bestEntry rest with
    | none => some e
    | some b => if b.1 > e.1 then some b else some e

/-- Tier selection as the spec words it: highest qualifying threshold. -/
def tierSpec (pct : ℚ) : String :=
  match bestEntry (EMOJI_THRESHOLDS.filter (fun p => decide (p.1 ≤ pct))) with
  | some e => e.2
  | none => "⬛⬛⬛⬛⬛"

lemma tierLoop_regions (p : ℚ) :
    tierLoop p = tierSpec p ∧
    (1/10000 ≤ p → p < 20 → tierLoop p = "🟨⬛⬛⬛⬛") ∧
    (tierLoop p = "⬛⬛⬛⬛⬛" ↔ p < 1/10000) := by
  rcases le_or_lt 100 p with h1 | h1
  · have c2 : (80:ℚ) ≤ p := by linarith
    have c3 : (60:ℚ) ≤ p := by linarith
    have c4 : (40:ℚ) ≤ p := by linarith
    have c5 : (20:ℚ) ≤ p := by linarith
    have c6d : (1/10000:ℚ) ≤ p := by linarith
    have c6 : (10000:ℚ)⁻¹ ≤ p := by rw [inv_eq_one_div]; linarith
    have e1 : tierLoop p = "🟩🟩🟩🟩🟩" := by
      simp [tierLoop, EMOJI_THRESHOLDS, h1]
    have e2 : tierSpec p = "🟩🟩🟩🟩🟩" := by
      norm_num [tierSpec, EMOJI_THRESHOLDS, bestEntry, h1, c2, c3, c4, c5, c6d]
    refine ⟨e1.trans e2.symm, fun _ hb => absurd hb (by linarith), ?_⟩
    exact iff_of_false (by rw [e1]; decide) (by rw [inv_eq_one_div] at c6; linarith)
  rcases le_or_lt 80 p with h2 | h2
  · have c3 : (60:ℚ) ≤ p := by linarith
    have c4 : (40:ℚ) ≤ p := by linarith
    have c5 : (20:ℚ) ≤ p := by linarith
    have c6d : (1/10000:ℚ) ≤ p := by linarith
    have c6 : (10000:ℚ)⁻¹ ≤ p := by rw [inv_eq_one_div]; linarith
    have e1 : tierLoop p = "🟩🟩🟩🟩🟨" := by
      simp [tierLoop, EMOJI_THRESHOLDS, h1.not_le, h2]
    have e2 : tierSpec p = "🟩🟩🟩🟩🟨" := by
      norm_num [tierSpec, EMOJI_THRESHOLDS, bestEntry, h1.not_le, h2, c3, c4, c5, c6d]
    refine ⟨e1.trans e2.symm, fun _ hb => absurd hb (by linarith), ?_⟩
    exact iff_of_false (by rw [e1]; decide) (by rw [inv_eq_one_div] at c6; linarith)
  rcases le_or_lt 60 p with h3 | h3
  · have c4 : (40:ℚ) ≤ p := by linarith
    have c5 : (20:ℚ) ≤ p := by linarith
    have c6d : (1/10000:ℚ) ≤ p := by linarith
    have c6 : (10000:ℚ)⁻¹ ≤ p := by rw [inv_eq_one_div]; linarith
    have e1 : tierLoop p = "🟩🟩🟩🟨⬛" := by
      simp [tierLoop, EMOJI_THRESHOLDS, h1.not_le, h2.not_le, h3]
    have e2 : tierSpec p = "🟩🟩🟩🟨⬛" := by
      norm_num [tierSpec, EMOJI_THRESHOLDS, bestEntry, h1.not_le, h2.not_le, h3, c4, c5, c6d]
    refine ⟨e1.trans e2.symm, fun _ hb => absurd hb (by linarith), ?_⟩
    exact iff_of_false (by rw [e1]; decide) (by rw [inv_eq_one_div] at c6; linarith)
  rcases le_or_lt 40 p with h4 | h4
  · have c5 : (20:ℚ) ≤ p := by linarith
    have c6d : (1/10000:ℚ) ≤ p := by linarith
    have c6 : (10000:ℚ)⁻¹ ≤ p := by rw [inv_eq_one_div]; linarith
    have e1 : tierLoop p = "🟩🟩🟨⬛⬛" := by
      simp [tierLoop, EMOJI_THRESHOLDS, h1.not_le, h2.not_le, h3.not_le, h4]
    have e2 : tierSpec p = "🟩🟩🟨⬛⬛" := by
      norm_num [tierSpec, EMOJI_THRESHOLDS, bestEntry, h1.not_le, h2.not_le, h3.not_le, h4, c5, c6d]
    refine ⟨e1.trans e2.symm, fun _ hb => absurd hb (by linarith), ?_⟩
    exact iff_of_false (by rw [e1]; decide) (by rw [inv_eq_one_div] at c6; linarith)
  rcases le_or_lt 20 p with h5 | h5
  · have c6d : (1/10000:ℚ) ≤ p := by linarith
    have c6 : (10000:ℚ)⁻¹ ≤ p := by rw [inv_eq_one_div]; linarith
    have e1 : tierLoop p = "🟩🟨⬛⬛⬛" := by
      simp [tierLoop, EMOJI_THRESHOLDS, h1.not_le, h2.not_le, h3.not_le, h4.not_le, h5]
    have e2 : tierSpec p = "🟩🟨⬛⬛⬛" := by
      norm_num [tierSpec, EMOJI_THRESHOLDS, bestEntry, h1.not_le, h2.not_le, h3.not_le, h4.not_le, h5, c6d]
    refine ⟨e1.trans e2.symm, fun _ hb => absurd hb (by linarith), ?_⟩
    exact iff_of_false (by rw [e1]; decide) (by rw [inv_eq_one_div] at c6; linarith)
  rcases le_or_lt (1/10000) p with h6 | h6
  · have c6d : (1/10000:ℚ) ≤ p := h6
    have c6 : (10000:ℚ)⁻¹ ≤ p := by rw [inv_eq_one_div]; linarith
    have e1 : tierLoop p = "🟨⬛⬛⬛⬛" := by
      simp [tierLoop, EMOJI_THRESHOLDS, h1.not_le, h2.not_le, h3.not_le, h4.not_le, h5.not_le, c6]
    have e2 : tierSpec p = "🟨⬛⬛⬛⬛" := by
      norm_num [tierSpec, EMOJI_THRESHOLDS, bestEntry, h1.not_le, h2.not_le, h3.not_le, h4.not_le, h5.not_le, c6d]
    refine ⟨e1.trans e2.symm, fun _ _ => e1, ?_⟩
    exact iff_of_false (by rw [e1]; decide) (by linarith)
  · have c6d : ¬ (1/10000:ℚ) ≤ p := h6.not_le
    have c6 : ¬ (10000:ℚ)⁻¹ ≤ p := by rw [inv_eq_one_div]; linarith
    have e1 : tierLoop p = "⬛⬛⬛⬛⬛" := by
      simp [tierLoop, EMOJI_THRESHOLDS, h1.not_le, h2.not_le, h3.not_le, h4.not_le, h5.not_le, c6]
    have e2 : tierSpec p = "⬛⬛⬛⬛⬛" := by
      norm_num [tierSpec, EMOJI_THRESHOLDS, bestEntry, h1.not_le, h2.not_le, h3.not_le, h4.not_le, h5.not_le, c6d]
    exact ⟨e1.trans e2.symm, fun ha _ => absurd ha (by linarith), iff_of_true e1 h6⟩

lemma tierLoop_zero : tierLoop 0 = "⬛⬛⬛⬛⬛" := by
  have h := (tierLoop_regions 0).2.2
  exact h.mpr (by norm_num)

/-- For a nonzero correct value the scorer is the tier of the clamped
percentage plus the rounded linear points; this also absorbs the
zero-guess override at line 249, which coincides with the loop default. -/
lemma calcScore_of_ne (g c : ℚ) (hc : c ≠ 0) :
    calcScore g c = (tierLoop (pctOf g c), pyRound (pctOf g c * 100)) := by
  unfold calcScore
  rw [if_neg hc]
  have hm : ((MAX_POINTS_PER_QUESTION : ℚ) / 100) = 100 := by
    norm_num [MAX_POINTS_PER_QUESTION]
  simp only [hm]
  split_ifs with hov
  · obtain ⟨hp0, _, _⟩ := hov
    rw [hp0, tierLoop_zero]
  · rfl

lemma tierLoop_100 : tierLoop (100:ℚ) = "🟩🟩🟩🟩🟩" := by
  simp [tierLoop, EMOJI_THRESHOLDS]

lemma pyRound_100_mul_100 : pyRound ((100:ℚ) * 100) = 10000 := by
  rw [show ((100:ℚ) * 100) = ((10000:ℤ):ℚ) by norm_num]
  exact pyRound_intCast 10000

/-- C6: score(v, v) is the maximum tier with 10000 points for every v > 0;
score(0, 0) likewise; and score(x, 0) is the five-empty tier with 0 points
for every x ≠ 0 (game_logic.py lines 228-252). -/
theorem claim6_exact_scores (v x : ℚ) (hv : 0 < v) (hx : x ≠ 0) :
    calcScore v v = ("🟩🟩🟩🟩🟩", 10000) ∧
    calcScore 0 0 = ("🟩🟩🟩🟩🟩", 10000) ∧
    calcScore x 0 = ("⬛⬛⬛⬛⬛", 0) := by
  refine ⟨?_, ?_, ?_⟩
  · rw [calcScore_of_ne v v (ne_of_gt hv), pctOf_self (ne_of_gt hv),
      tierLoop_100, pyRound_100_mul_100]
  · unfold calcScore
    norm_num [tierLoop_100, MAX_POINTS_PER_QUESTION]
  · unfold calcScore
    simp [hx, tierLoop_zero]

/-- Witness for C6 at v = 5, x = 3. -/
theorem claim6_exact_scores_witness :
    (0:ℚ) < 5 ∧ (3:ℚ) ≠ 0 ∧
    (calcScore 5 5 = ("🟩🟩🟩🟩🟩", 10000) ∧
     calcScore 0 0 = ("🟩🟩🟩🟩🟩", 10000) ∧
     calcScore 3 0 = ("⬛⬛⬛⬛⬛", 0)) :=
  ⟨by norm_num, by norm_num, claim6_exact_scores 5 3 (by norm_num) (by norm_num)⟩

/-- C7: for a fixed positive correct value, points are monotonically
non-decreasing in the guess over [0, correct], and equal to 10000 for
every guess at or above the correct value (game_logic.py lines 236-239). -/
theorem claim7_monotone (c g₁ g₂ g : ℚ) (hc : 0 < c) (h0 : 0 ≤ g₁)
    (h12 : g₁ ≤ g₂) (h2c : g₂ ≤ c) (hgc : c ≤ g) :
    (calcScore g₁ c).2 ≤ (calcScore g₂ c).2 ∧ (calcScore g c).2 = 10000 := by
  have hcne := ne_of_gt hc
  constructor
  · rw [calcScore_of_ne g₁ c hcne, calcScore_of_ne g₂ c hcne]
    exact pyRound_mono (mul_le_mul_of_nonneg_right (pctOf_mono hc h12) (by norm_num))
  · rw [calcScore_of_ne g c hcne, pctOf_of_ge hc hgc]
    exact pyRound_100_mul_100

/-- Witness for C7 at c = 5, g₁ = 1, g₂ = 2, g = 7. -/
theorem claim7_monotone_witness :
    (0:ℚ) < 5 ∧ (0:ℚ) ≤ 1 ∧ (1:ℚ) ≤ 2 ∧ (2:ℚ) ≤ 5 ∧ (5:ℚ) ≤ 7 ∧
    ((calcScore 1 5).2 ≤ (calcScore 2 5).2 ∧ (calcScore 7 5).2 = 10000) :=
  ⟨by norm_num, by norm_num, by norm_num, by norm_num, by norm_num,
    claim7_monotone 5 1 2 7 (by norm_num) (by norm_num) (by norm_num)
      (by norm_num) (by norm_num)⟩

/-- C5 counterexample: at guess 1 against correct value 10000000 the
clamped percentage is 1/100000 — strictly positive and below 20 — yet the
tier is the five-empty string, not the one-partial string: the code's
lowest ladder rung is the literal 0.0001, so percentages in (0, 0.0001)
fall through to five-empty, refuting "positive percentage below 20 gives
the 1-partial tier" and "5-empty occurs only at percentage exactly 0". -/
theorem claim5_counterexample :
    0 < pctOf 1 10000000 ∧ pctOf 1 10000000 < 20 ∧
    (calcScore 1 10000000).1 = "⬛⬛⬛⬛⬛" ∧
    (calcScore 1 10000000).1 ≠ "🟨⬛⬛⬛⬛" := by
  have hp : pctOf 1 10000000 = 1/100000 := by
    norm_num [pctOf, max_def, min_def]
  have ht : tierLoop (1/100000 : ℚ) = "⬛⬛⬛⬛⬛" := by
    norm_num [tierLoop, EMOJI_THRESHOLDS]
  have hsc : (calcScore 1 10000000).1 = "⬛⬛⬛⬛⬛" := by
    rw [calcScore_of_ne 1 10000000 (by norm_num), hp]
    exact ht
  refine ⟨by rw [hp]; norm_num, by rw [hp]; norm_num, hsc, by rw [hsc]; decide⟩

/-- C5 (amended): for every guess and nonzero coercible correct value, the
tier is the highest ladder threshold at most the clamped percentage, with
the code's ladder whose lowest rung is 0.0001 (modelled 1/10000): for
percentages in [0.0001, 20) the tier is one-partial-four-empty, and the
five-empty tier occurs exactly when the percentage is below 0.0001. -/
theorem claim5_tier_ladder (g c : ℚ) (hc : c ≠ 0) :
    (calcScore g c).1 = tierSpec (pctOf g c) ∧
    (1/10000 ≤ pctOf g c → pctOf g c < 20 → (calcScore g c).1 = "🟨⬛⬛⬛⬛") ∧
    ((calcScore g c).1 = "⬛⬛⬛⬛⬛" ↔ pctOf g c < 1/10000) := by
  rw [calcScore_of_ne g c hc]
  exact tierLoop_regions (pctOf g c)

/-- Witness for C5 (amended) at guess 30, correct 200 (percentage 15). -/
theorem claim5_tier_ladder_witness :
    (200:ℚ) ≠ 0 ∧
    ((calcScore 30 200).1 = tierSpec (pctOf 30 200) ∧
     (1/10000 ≤ pctOf 30 200 → pctOf 30 200 < 20 → (calcScore 30 200).1 = "🟨⬛⬛⬛⬛") ∧
     ((calcScore 30 200).1 = "⬛⬛⬛⬛⬛" ↔ pctOf 30 200 < 1/10000)) :=
  ⟨by norm_num, claim5_tier_ladder 30 200 (by norm_num)⟩

/-- C10: the Leader Resolver leaves the caller's table untouched — every
write lands on the fresh copy — and its result is the pure resolver's
value on that table (game_logic.py lines 96-99). -/
theorem claim10_frame (heap : List Df) (r : ℕ) (col : String)
    (hr : r < heap.length) :
    ((get_stat_leader_heap heap r col).2)[r]? = heap[r]? ∧
    (get_stat_leader_heap heap r col).1 = get_stat_leader (heap.getD r emptyDf) col := by
  by_cases h : ((heap.getD r emptyDf).isEmpty
      || !(heap.getD r emptyDf).cols.contains col
      || !(heap.getD r emptyDf).cols.contains "player_id") = true
  · have he : get_stat_leader_heap heap r col = (none, heap) := by
      unfold get_stat_leader_heap
      rw [if_pos h]
    have hp : get_stat_leader (heap.getD r emptyDf) col = none := by
      unfold get_stat_leader
      rw [if_pos h]
    rw [he, hp]
    exact ⟨rfl, rfl⟩
  · have he : get_stat_leader_heap heap r col =
        (leaderOf (dropnaCol (coerceCol (heap.getD r emptyDf) col) col) col,
         ((heap ++ [heap.getD r emptyDf]).set heap.length
           (coerceCol (heap.getD r emptyDf) col)) ++
           [dropnaCol (coerceCol (heap.getD r emptyDf) col) col]) := by
      unfold get_stat_leader_heap
      rw [if_neg h]
    have hp : get_stat_leader (heap.getD r emptyDf) col =
        leaderOf (dropnaCol (coerceCol (heap.getD r emptyDf) col) col) col := by
      unfold get_stat_leader
      rw [if_neg h]
    rw [he, hp]
    refine ⟨?_, rfl⟩
    have len1 : r < ((heap ++ [heap.getD r emptyDf]).set heap.length
        (coerceCol (heap.getD r emptyDf) col)).length := by
      simp
      omega
    rw [List.getElem?_append_left len1,
      List.getElem?_set_ne (Nat.ne_of_lt hr).symm,
      List.getElem?_append_left hr]

/-- A one-row table for exercising the Leader Resolver. -/
def dfC10 : Df :=
  ⟨["player_id", "x"], [[("player_id", Val.str "a"), ("x", Val.num 3)]]⟩

/-- Witness for C10 on a one-table heap. -/
theorem claim10_frame_witness :
    0 < [dfC10].length ∧
    (((get_stat_leader_heap [dfC10] 0 "x").2)[0]? = [dfC10][0]? ∧
     (get_stat_leader_heap [dfC10] 0 "x").1 =
       get_stat_leader ([dfC10].getD 0 emptyDf) "x") :=
  ⟨by decide, claim10_frame [dfC10] 0 "x" (by decide)⟩

/-- C3 (amended): a cache hit returns the stored value (re-validated)
without consulting the loader and leaves the cache unchanged; a cache miss
invokes the loader and stores its result collapsed — a result whose roster
or stats table is empty is stored as four empty tables, not as-is
(game_logic.py lines 68-85). -/
theorem claim3_cache_behaviour (l₁ l₂ : Loader) (c : Cache) (y : ℤ) :
    (∀ v, cacheLookup c y = some v →
      get_data_for_year_cached l₁ y c = (postVal v, c) ∧
      get_data_for_year_cached l₁ y c = get_data_for_year_cached l₂ y c) ∧
    (cacheLookup c y = none →
      get_data_for_year_cached l₁ y c =
        (postVal (storeVal l₁ y), (y, storeVal l₁ y) :: c)) := by
  refine ⟨fun v hv => ?_, fun hn => ?_⟩
  · constructor
    · unfold get_data_for_year_cached
      rw [hv]
    · unfold get_data_for_year_cached
      rw [hv]
  · unfold get_data_for_year_cached
    rw [hn]

/-- A roster table with one complete row. -/
def rosterC3 : Df :=
  ⟨["player_id", "player_name"],
   [[("player_id", Val.str "p1"), ("player_name", Val.str "Alice")]]⟩

/-- A loader whose stats table is empty while its roster is not, the
shape the Normalizer produces when the raw statistics source has no rows. -/
def loaderC3 : Loader := fun _ => .ok (rosterC3, emptyDf, emptyDf, emptyDf)

/-- C3 counterexample: on first request for year 2000 against a loader
returning a non-empty roster with an empty stats table, the cache stores
the four-empty-tables collapse — not the loader's result as-is — and
returns the collapse as well. -/
theorem claim3_counterexample :
    loaderC3 2000 = Except.ok (rosterC3, emptyDf, emptyDf, emptyDf) ∧
    rosterC3.isEmpty = false ∧
    (get_data_for_year_cached loaderC3 2000 []).2 = [(2000, emptyDf4)] ∧
    (get_data_for_year_cached loaderC3 2000 []).1 = emptyDf4 ∧
    emptyDf4 ≠ (rosterC3, emptyDf, emptyDf, emptyDf) := by
  refine ⟨rfl, rfl, ?_, ?_, ?_⟩ <;> decide

/-- Witness for C3 (amended), hit case at year 5 with two loaders. -/
theorem claim3_cache_behaviour_witness :
    cacheLookup [((5:ℤ), emptyDf4)] 5 = some emptyDf4 ∧
    (get_data_for_year_cached loaderC3 5 [(5, emptyDf4)] =
        (postVal emptyDf4, [(5, emptyDf4)]) ∧
     get_data_for_year_cached loaderC3 5 [(5, emptyDf4)] =
       get_data_for_year_cached (fun _ => .error "down") 5 [(5, emptyDf4)]) :=
  ⟨by decide,
   (claim3_cache_behaviour loaderC3 (fun _ => .error "down")
     [(5, emptyDf4)] 5).1 emptyDf4 (by decide)⟩

/-! ## Helper lemmas: the cache under generation -/

lemma getCached_self (l : Loader) (y : ℤ) (c : Cache) :
    ∃ s, cacheLookup (get_data_for_year_cached l y c).2 y = some s ∧
      (get_data_for_year_cached l y c).1 = postVal s := by
  cases h : cacheLookup c y with
  | some t =>
    refine ⟨t, ?_, ?_⟩ <;> simp [get_data_for_year_cached, h]
  | none =>
    refine ⟨storeVal l y, ?_, ?_⟩ <;> simp [get_data_for_year_cached, h, cacheLookup]

/-- States that `d` preserves every binding of `c` (the cache only ever grows). -/
def CacheExt (c d : Cache) : Prop :=
  ∀ y v, cacheLookup c y = some v → cacheLookup d y = some v

lemma getCached_ext (l : Loader) (y : ℤ) (c : Cache) :
    CacheExt c (get_data_for_year_cached l y c).2 := by
  intro y0 v hv
  cases h : cacheLookup c y with
  | some t => simpa [get_data_for_year_cached, h] using hv
  | none =>
    by_cases hy : y0 = y
    · subst hy
      rw [hv] at h
      exact absurd h (by simp)
    · simpa [get_data_for_year_cached, h, cacheLookup, hy] using hv

lemma getCached_stable (l : Loader) (y : ℤ) (c : Cache) {d : Cache}
    (hd : CacheExt (get_data_for_year_cached l y c).2 d) :
    get_data_for_year_cached l y d = ((get_data_for_year_cached l y c).1, d) := by
  obtain ⟨s, hs, hv⟩ := getCached_self l y c
  have hds := hd y s hs
  have hcall : get_data_for_year_cached l y d = (postVal s, d) := by
    unfold get_data_for_year_cached
    rw [hds]
  rw [hcall, hv]

lemma runSlots_cons (l : Loader) (nY : ℤ) (nM : ℕ) (dm : Bool)
    (st : GState) (slot : String) (rest : List String) :
    runSlots l nY nM dm st (slot :: rest) =
      ((runSlots l nY nM dm (stepSlot l nY nM dm st slot).1 rest).1,
       (stepSlot l nY nM dm st slot).2.1.map
          (fun q => (q, (stepSlot l nY nM dm st slot).2.2))
         ++ (runSlots l nY nM dm (stepSlot l nY nM dm st slot).1 rest).2) := rfl

lemma stepSlot_cache (l : Loader) (nY : ℤ) (nM : ℕ) (dm : Bool)
    (st : GState) (slot : String) :
    (stepSlot l nY nM dm st slot).1.cache =
      (get_data_for_year_cached l
        (select_random_year_for_question nY nM dm st.rng).1 st.cache).2 := rfl

lemma stepSlot_stable (l : Loader) (nY : ℤ) (nM : ℕ) (dm : Bool)
    (st : GState) (slot : String) {d : Cache}
    (hd : CacheExt (stepSlot l nY nM dm st slot).1.cache d) :
    stepSlot l nY nM dm ⟨st.rng, d, st.used⟩ slot =
      (⟨(stepSlot l nY nM dm st slot).1.rng, d, (stepSlot l nY nM dm st slot).1.used⟩,
       (stepSlot l nY nM dm st slot).2) := by
  rw [stepSlot_cache] at hd
  have hst := getCached_stable l (select_random_year_for_question nY nM dm st.rng).1
    st.cache hd
  unfold stepSlot
  dsimp only
  rw [hst]

lemma runSlots_ext (l : Loader) (nY : ℤ) (nM : ℕ) (dm : Bool)
    (slots : List String) :
    ∀ st : GState, CacheExt st.cache (runSlots l nY nM dm st slots).1.cache := by
  induction slots with
  | nil => exact fun st y v h => h
  | cons slot rest ih =>
    intro st y v hv
    have h1 : CacheExt st.cache (stepSlot l nY nM dm st slot).1.cache := by
      rw [stepSlot_cache]
      exact getCached_ext l _ st.cache
    exact ih (stepSlot l nY nM dm st slot).1 y v (h1 y v hv)

lemma runSlots_stable (l : Loader) (nY : ℤ) (nM : ℕ) (dm : Bool)
    (slots : List String) :
    ∀ (st : GState) (d : Cache),
      CacheExt (runSlots l nY nM dm st slots).1.cache d →
      runSlots l nY nM dm ⟨st.rng, d, st.used⟩ slots =
        (⟨(runSlots l nY nM dm st slots).1.rng, d,
          (runSlots l nY nM dm st slots).1.used⟩,
         (runSlots l nY nM dm st slots).2) := by
  induction slots with
  | nil => intro st d _; rfl
  | cons slot rest ih =>
    intro st d hd
    have hd1 : CacheExt (stepSlot l nY nM dm st slot).1.cache d := by
      intro y v hv
      exact hd y v (runSlots_ext l nY nM dm rest (stepSlot l nY nM dm st slot).1 y v hv)
    have hstep := stepSlot_stable l nY nM dm st slot hd1
    have ihh := ih (stepSlot l nY nM dm st slot).1 d hd
    rw [runSlots_cons, runSlots_cons, hstep]
    simp only []
    rw [ihh]

lemma generate_run_seeded (mt : ℤ → ℕ → ℕ) (l : Loader) (nY : ℤ) (nM : ℕ)
    (cache : Cache) (rng : Rng) (s : ℤ) :
    generate_run mt l nY nM cache rng true (some s) =
      ((runSlots l nY nM true ⟨⟨mt s, 0⟩, cache, []⟩ POSITIONS_FOR_DRAFT).2,
       (runSlots l nY nM true ⟨⟨mt s, 0⟩, cache, []⟩ POSITIONS_FOR_DRAFT).1.cache) := rfl

/-- C1: generating a daily round twice with the same seed, on the same
date, against the same data source, yields the same question records —
the second call runs on the cache the first call populated and with an
arbitrary intervening PRNG state, and still reproduces the round
record-for-record (hence in particular the same (slot, year, statistic,
leader id, leader value) tuples). -/
theorem claim1_daily_determinism (mt : ℤ → ℕ → ℕ) (l : Loader) (nowYear : ℤ)
    (nowMonth : ℕ) (cache : Cache) (rng₁ rng₂ : Rng) (s : ℤ) :
    (generate_questions_for_round mt l nowYear nowMonth cache rng₁ true (some s)).1 =
    (generate_questions_for_round mt l nowYear nowMonth
      (generate_questions_for_round mt l nowYear nowMonth cache rng₁ true (some s)).2
      rng₂ true (some s)).1 := by
  unfold generate_questions_for_round
  rw [generate_run_seeded, generate_run_seeded]
  dsimp only
  have hst := runSlots_stable l nowYear nowMonth true POSITIONS_FOR_DRAFT
    ⟨⟨mt s, 0⟩, cache, []⟩
    ((runSlots l nowYear nowMonth true ⟨⟨mt s, 0⟩, cache, []⟩ POSITIONS_FOR_DRAFT).1.cache)
    (fun _ _ h => h)
  dsimp only at hst
  rw [hst]

lemma stepSlot_qs (l : Loader) (nY : ℤ) (nM : ℕ) (dm : Bool)
    (st : GState) (slot : String) :
    (stepSlot l nY nM dm st slot).2.1 =
      (slotCore slot (select_random_year_for_question nY nM dm st.rng).1
        (get_data_for_year_cached l
          (select_random_year_for_question nY nM dm st.rng).1 st.cache).1
        (select_random_year_for_question nY nM dm st.rng).2 st.used).qs := rfl

lemma slotCore_qs_map (slot : String) (year : ℤ) (dfs : Df4) (r1 : Rng)
    (used : List (ℤ × String))
    (h : (alistGet STAT_CATEGORIES (rstrip12 slot)).isEmpty = false) :
    ((slotCore slot year dfs r1 used).qs).map (fun q => q.position_slot) = [slot] := by
  unfold slotCore
  dsimp only
  split_ifs with h1 h2 h3
  · rfl
  · exact absurd h2 (by simp [h])
  · rcases hp : pickWRStat year (alistGet STAT_CATEGORIES (rstrip12 slot)) used
      (3 * (alistGet STAT_CATEGORIES (rstrip12 slot)).length) r1 with ⟨o, r2⟩
    cases o <;> rfl
  · rfl

lemma runSlots_qs_map (l : Loader) (nY : ℤ) (nM : ℕ) (dm : Bool)
    (slots : List String)
    (h : ∀ slot ∈ slots, (alistGet STAT_CATEGORIES (rstrip12 slot)).isEmpty = false) :
    ∀ st : GState,
      ((runSlots l nY nM dm st slots).2).map (fun p => p.1.position_slot) = slots := by
  induction slots with
  | nil => intro st; rfl
  | cons slot rest ih =>
    intro st
    rw [runSlots_cons]
    dsimp only
    rw [List.map_append, List.map_map]
    have h1 : ((stepSlot l nY nM dm st slot).2.1).map
        (fun q => q.position_slot) = [slot] := by
      rw [stepSlot_qs]
      exact slotCore_qs_map _ _ _ _ _ (h slot (by simp))
    have h2 := ih (fun s hs => h s (by simp [hs])) (stepSlot l nY nM dm st slot).1
    have h1c : ((stepSlot l nY nM dm st slot).2.1).map
        ((fun p => p.1.position_slot) ∘ fun q => (q, (stepSlot l nY nM dm st slot).2.2))
        = [slot] := h1
    rw [h1c, h2]
    rfl

/-- C2: for every cache state, mode, seed, and loader behaviour (failures
and empty datasets included), the generator returns exactly five records,
one per slot in the fixed order [QB, WR1, WR2, RB, TE]; totality of the
embedding reflects that the source absorbs every failure locally and
never raises. -/
theorem claim2_round_shape (mt : ℤ → ℕ → ℕ) (l : Loader) (nY : ℤ) (nM : ℕ)
    (cache : Cache) (rng : Rng) (dm : Bool) (seedOpt : Option ℤ) :
    ((generate_questions_for_round mt l nY nM cache rng dm seedOpt).1).map
        (fun q => q.position_slot) = POSITIONS_FOR_DRAFT ∧
    (generate_questions_for_round mt l nY nM cache rng dm seedOpt).1.length = 5 := by
  have hmap : ((generate_questions_for_round mt l nY nM cache rng dm seedOpt).1).map
      (fun q => q.position_slot) = POSITIONS_FOR_DRAFT := by
    unfold generate_questions_for_round generate_run
    dsimp only
    rw [List.map_map]
    exact runSlots_qs_map l nY nM dm POSITIONS_FOR_DRAFT (by decide) _
  refine ⟨hmap, ?_⟩
  have hlen := congrArg List.length hmap
  rw [List.length_map] at hlen
  exact hlen

/-! ## Helper lemmas: the WR retry loop -/

lemma pickWRStat_sound (year : ℤ) (menu : List String) (used : List (ℤ × String)) :
    ∀ (fuel : ℕ) (r : Rng) (s : String) (r2 : Rng),
      pickWRStat year menu used fuel r = (some s, r2) → (year, s) ∉ used := by
  intro fuel
  induction fuel with
  | zero =>
    intro r s r2 h
    exact absurd h (by simp [pickWRStat])
  | succ n ih =>
    intro r s r2 h
    unfold pickWRStat at h
    dsimp only at h
    split_ifs at h with hm
    · exact ih _ s r2 h
    · have hs : (rchoice menu r).1 = s := by
        simpa using congrArg (fun p => p.1.getD "") h
      rw [hs] at hm
      exact hm

lemma pickWRStat_nil_isSome (year : ℤ) (menu : List String) (fuel : ℕ) (r : Rng)
    (hf : 0 < fuel) : (pickWRStat year menu [] fuel r).1.isSome := by
  cases fuel with
  | zero => omega
  | succ n => simp [pickWRStat]

/-- Outside the WR slots the used-pair set is left unchanged. -/
lemma slotCore_nonWR_used (slot : String) (year : ℤ) (dfs : Df4) (r : Rng)
    (used : List (ℤ × String)) (hw : rstrip12 slot ≠ "WR") :
    (slotCore slot year dfs r used).used = used := by
  unfold slotCore
  dsimp only
  split_ifs with h1 h2 <;> rfl

/-- With an empty used-pair set the WR retry loop cannot be exhausted, so
the fallback never fires. -/
lemma slotCore_fallback_nil (slot : String) (year : ℤ) (dfs : Df4) (r : Rng) :
    (slotCore slot year dfs r []).fallback = false := by
  unfold slotCore
  dsimp only
  split_ifs with h1 h2 h3
  · rfl
  · rfl
  · rcases hp : pickWRStat year (alistGet STAT_CATEGORIES (rstrip12 slot)) []
      (3 * (alistGet STAT_CATEGORIES (rstrip12 slot)).length) r with ⟨o, r2⟩
    cases o with
    | some s => rfl
    | none =>
      have hf : 0 < 3 * (alistGet STAT_CATEGORIES (rstrip12 slot)).length := by
        have hne : alistGet STAT_CATEGORIES (rstrip12 slot) ≠ [] := by
          simpa [List.isEmpty_iff] using h2
        have := List.length_pos.mpr hne
        omega
      have := pickWRStat_nil_isSome year (alistGet STAT_CATEGORIES (rstrip12 slot))
        (3 * (alistGet STAT_CATEGORIES (rstrip12 slot)).length) r hf
      rw [hp] at this
      simp at this
  · rfl

/-- A WR slot whose fallback did not fire produced a record whose
(year, statistic) pair was fresh, and recorded that pair in the used set. -/
lemma slotCore_wr_spec (slot : String) (year : ℤ) (dfs : Df4) (r : Rng)
    (used : List (ℤ × String)) (hw : rstrip12 slot = "WR")
    (hfb : (slotCore slot year dfs r used).fallback = false)
    {q : Question} {s : String}
    (hq : q ∈ (slotCore slot year dfs r used).qs)
    (hs : q.stat_category = some s) :
    q.year = year ∧ (year, s) ∉ used ∧
    (slotCore slot year dfs r used).used = (year, s) :: used := by
  unfold slotCore at hfb hq ⊢
  dsimp only at hfb hq ⊢
  split_ifs at hfb hq ⊢ with h1 h2
  · simp at hq
    rw [hq] at hs
    exact absurd hs (by simp [dataIssueQ])
  · simp at hq
  · rcases hp : pickWRStat year (alistGet STAT_CATEGORIES (rstrip12 slot)) used
      (3 * (alistGet STAT_CATEGORIES (rstrip12 slot)).length) r with ⟨o, r2⟩
    cases o with
    | some s0 =>
      rw [hp] at hq
      simp at hq
      rw [hq] at hs
      have hss : s0 = s := by simpa [mkMainQ] using hs
      subst hss
      refine ⟨?_, pickWRStat_sound year _ used _ r s0 r2 hp, rfl⟩
      rw [hq]
      rfl
    | none =>
      rw [hp] at hfb
      simp at hfb

lemma stepSlot_slotCore (l : Loader) (nY : ℤ) (nM : ℕ) (dm : Bool)
    (st : GState) (slot : String) :
    stepSlot l nY nM dm st slot =
      (⟨(slotCore slot (select_random_year_for_question nY nM dm st.rng).1
          (get_data_for_year_cached l
            (select_random_year_for_question nY nM dm st.rng).1 st.cache).1
          (select_random_year_for_question nY nM dm st.rng).2 st.used).rng,
        (get_data_for_year_cached l
          (select_random_year_for_question nY nM dm st.rng).1 st.cache).2,
        (slotCore slot (select_random_year_for_question nY nM dm st.rng).1
          (get_data_for_year_cached l
            (select_random_year_for_question nY nM dm st.rng).1 st.cache).1
          (select_random_year_for_question nY nM dm st.rng).2 st.used).used⟩,
       (slotCore slot (select_random_year_for_question nY nM dm st.rng).1
          (get_data_for_year_cached l
            (select_random_year_for_question nY nM dm st.rng).1 st.cache).1
          (select_random_year_for_question nY nM dm st.rng).2 st.used).qs,
       (slotCore slot (select_random_year_for_question nY nM dm st.rng).1
          (get_data_for_year_cached l
            (select_random_year_for_question nY nM dm st.rng).1 st.cache).1
          (select_random_year_for_question nY nM dm st.rng).2 st.used).fallback) := rfl

lemma stepSlot_used_nonWR (l : Loader) (nY : ℤ) (nM : ℕ) (dm : Bool)
    (st : GState) (slot : String) (hw : rstrip12 slot ≠ "WR") :
    (stepSlot l nY nM dm st slot).1.used = st.used := by
  rw [stepSlot_slotCore]
  exact slotCore_nonWR_used _ _ _ _ _ hw

lemma stepSlot_fb_nil (l : Loader) (nY : ℤ) (nM : ℕ) (dm : Bool)
    (st : GState) (slot : String) (hu : st.used = []) :
    (stepSlot l nY nM dm st slot).2.2 = false := by
  rw [stepSlot_slotCore]
  dsimp only
  rw [hu]
  exact slotCore_fallback_nil _ _ _ _

lemma stepSlot_wr_spec (l : Loader) (nY : ℤ) (nM : ℕ) (dm : Bool)
    (st : GState) (slot : String) (hw : rstrip12 slot = "WR")
    (hfb : (stepSlot l nY nM dm st slot).2.2 = false)
    {q : Question} {s : String}
    (hq : q ∈ (stepSlot l nY nM dm st slot).2.1)
    (hs : q.stat_category = some s) :
    q.year = (select_random_year_for_question nY nM dm st.rng).1 ∧
    ((select_random_year_for_question nY nM dm st.rng).1, s) ∉ st.used ∧
    (stepSlot l nY nM dm st slot).1.used =
      ((select_random_year_for_question nY nM dm st.rng).1, s) :: st.used := by
  rw [stepSlot_slotCore] at hfb hq ⊢
  exact slotCore_wr_spec _ _ _ _ _ hw hfb hq hs

lemma stepSlot_qs_singleton (l : Loader) (nY : ℤ) (nM : ℕ) (dm : Bool)
    (st : GState) (slot : String)
    (h : (alistGet STAT_CATEGORIES (rstrip12 slot)).isEmpty = false) :
    ∃ q : Question, (stepSlot l nY nM dm st slot).2.1 = [q] := by
  have hm : ((stepSlot l nY nM dm st slot).2.1).map (fun q => q.position_slot)
      = [slot] := by
    rw [stepSlot_slotCore]
    exact slotCore_qs_map _ _ _ _ _ h
  have hlen : (stepSlot l nY nM dm st slot).2.1.length = 1 := by
    have := congrArg List.length hm
    simpa using this
  exact List.length_eq_one.mp hlen

/-- The WR-uniqueness chain through a full slot run: with an empty initial
used-pair set, unless the WR2 retry fell back, its (year, statistic) pair
differs from WR1's. -/
lemma runSlots_wr_pairs (l : Loader) (nY : ℤ) (nM : ℕ) (dm : Bool)
    (st : GState) (hu : st.used = [])
    (q₁ q₂ : Question) (fb₁ fb₂ : Bool) (s₁ s₂ : String)
    (h1 : ((runSlots l nY nM dm st POSITIONS_FOR_DRAFT).2).get? 1 = some (q₁, fb₁))
    (h2 : ((runSlots l nY nM dm st POSITIONS_FOR_DRAFT).2).get? 2 = some (q₂, fb₂))
    (hfb : fb₂ = false)
    (hs1 : q₁.stat_category = some s₁) (hs2 : q₂.stat_category = some s₂) :
    (q₁.year, s₁) ≠ (q₂.year, s₂) := by
  rw [show POSITIONS_FOR_DRAFT = ["QB", "WR1", "WR2", "RB", "TE"] from rfl] at h1 h2
  rw [runSlots_cons, runSlots_cons, runSlots_cons] at h1 h2
  obtain ⟨p0, hp0⟩ := stepSlot_qs_singleton l nY nM dm st "QB" (by decide)
  obtain ⟨p1, hp1⟩ := stepSlot_qs_singleton l nY nM dm
    (stepSlot l nY nM dm st "QB").1 "WR1" (by decide)
  obtain ⟨p2, hp2⟩ := stepSlot_qs_singleton l nY nM dm
    (stepSlot l nY nM dm (stepSlot l nY nM dm st "QB").1 "WR1").1 "WR2" (by decide)
  rw [hp0, hp1, hp2] at h1 h2
  simp only [List.map_cons, List.map_nil, List.cons_append, List.nil_append,
    List.get?_cons_succ, List.get?_cons_zero, Option.some.injEq, Prod.mk.injEq] at h1 h2
  obtain ⟨hq1, hf1⟩ := h1
  obtain ⟨hq2, hf2⟩ := h2
  have hused1 : (stepSlot l nY nM dm st "QB").1.used = [] := by
    rw [stepSlot_used_nonWR l nY nM dm st "QB" (by decide), hu]
  have hfb1 : (stepSlot l nY nM dm (stepSlot l nY nM dm st "QB").1 "WR1").2.2 = false :=
    stepSlot_fb_nil l nY nM dm _ "WR1" hused1
  have hmem1 : q₁ ∈ (stepSlot l nY nM dm (stepSlot l nY nM dm st "QB").1 "WR1").2.1 := by
    rw [hp1, hq1]
    exact List.mem_singleton_self _
  have hWR1 := stepSlot_wr_spec l nY nM dm (stepSlot l nY nM dm st "QB").1 "WR1"
    (by decide) hfb1 hmem1 hs1
  have hfb2 : (stepSlot l nY nM dm
      (stepSlot l nY nM dm (stepSlot l nY nM dm st "QB").1 "WR1").1 "WR2").2.2 = false := by
    rw [hf2]
    exact hfb
  have hmem2 : q₂ ∈ (stepSlot l nY nM dm
      (stepSlot l nY nM dm (stepSlot l nY nM dm st "QB").1 "WR1").1 "WR2").2.1 := by
    rw [hp2, hq2]
    exact List.mem_singleton_self _
  have hWR2 := stepSlot_wr_spec l nY nM dm
    (stepSlot l nY nM dm (stepSlot l nY nM dm st "QB").1 "WR1").1 "WR2"
    (by decide) hfb2 hmem2 hs2
  have hst2used : (stepSlot l nY nM dm (stepSlot l nY nM dm st "QB").1 "WR1").1.used
      = [(q₁.year, s₁)] := by
    rw [hWR1.2.2, hused1, ← hWR1.1]
  have hnot : (q₂.year, s₂) ∉
      (stepSlot l nY nM dm (stepSlot l nY nM dm st "QB").1 "WR1").1.used := by
    rw [← hWR2.1] at hWR2
    exact hWR2.2.1
  rw [hst2used] at hnot
  intro heq
  apply hnot
  rw [← heq]
  exact List.mem_singleton_self _

/-- C8: in every generated round, the (year, statistic) pairs of the WR1
(index 1) and WR2 (index 2) records differ whenever WR2's bounded-retry
fallback flag is off; when the retry was exhausted the unconstrained
fallback choice fired and no claim is made (game_logic.py lines 155-173). -/
theorem claim8_wr_uniqueness (mt : ℤ → ℕ → ℕ) (l : Loader) (nY : ℤ) (nM : ℕ)
    (cache : Cache) (rng : Rng) (dm : Bool) (seedOpt : Option ℤ)
    (q₁ q₂ : Question) (fb₁ fb₂ : Bool) (s₁ s₂ : String)
    (h1 : ((generate_run mt l nY nM cache rng dm seedOpt).1).get? 1 = some (q₁, fb₁))
    (h2 : ((generate_run mt l nY nM cache rng dm seedOpt).1).get? 2 = some (q₂, fb₂))
    (hfb : fb₂ = false)
    (hs1 : q₁.stat_category = some s₁) (hs2 : q₂.stat_category = some s₂) :
    (q₁.year, s₁) ≠ (q₂.year, s₂) := by
  unfold generate_run at h1 h2
  dsimp only at h1 h2
  exact runSlots_wr_pairs l nY nM dm _ rfl q₁ q₂ fb₁ fb₂ s₁ s₂ h1 h2 hfb hs1 hs2

/-- A stream model whose seeded draws are 0, 1, 2, … . -/
def mtW : ℤ → ℕ → ℕ := fun _ i => i

/-- An all-zero unseeded PRNG state. -/
def rngW : Rng := ⟨fun _ => 0, 0⟩

/-- A one-row stats table carrying only a WR position row. -/
def statsW : Df :=
  ⟨["player_id", "position"],
   [[("player_id", Val.str "p1"), ("position", Val.str "WR")]]⟩

/-- A loader with a non-empty roster and the one-row WR stats table. -/
def loaderW : Loader := fun _ => .ok (rosterC3, statsW, emptyDf, emptyDf)

/-- The flagged output of a concrete seeded round. -/
def outW : List (Question × Bool) :=
  (generate_run mtW loaderW 2000 10 [] rngW true (some 1)).1

/-- The concrete round's WR1 record. -/
def qW1 : Question := ((outW.get? 1).getD (dataIssueQ "" 0, false)).1

/-- The concrete round's WR2 record. -/
def qW2 : Question := ((outW.get? 2).getD (dataIssueQ "" 0, false)).1

/-- Witness for C8 on the concrete seeded round. -/
theorem claim8_wr_uniqueness_witness :
    outW.get? 1 = some (qW1, false) ∧
    outW.get? 2 = some (qW2, false) ∧
    qW1.stat_category = some "targets" ∧
    qW2.stat_category = some "receiving_yards" ∧
    (qW1.year, "targets") ≠ (qW2.year, "receiving_yards") := by
  have e1 : outW.get? 1 = some (qW1, false) := by decide
  have e2 : outW.get? 2 = some (qW2, false) := by decide
  have e3 : qW1.stat_category = some "targets" := by decide
  have e4 : qW2.stat_category = some "receiving_yards" := by decide
  exact ⟨e1, e2, e3, e4,
    claim8_wr_uniqueness mtW loaderW 2000 10 [] rngW true (some 1)
      qW1 qW2 false false "targets" "receiving_yards" e1 e2 rfl e3 e4⟩

lemma rchoice_mem (xs : List String) (r : Rng) (h : xs ≠ []) :
    (rchoice xs r).1 ∈ xs := by
  have hlt : r.stream r.idx % xs.length < xs.length :=
    Nat.mod_lt _ (List.length_pos.mpr h)
  unfold rchoice rngNext
  dsimp only
  rw [List.getD_eq_getElem?_getD, List.getElem?_eq_getElem hlt]
  exact List.getElem_mem hlt

lemma pickWRStat_mem (year : ℤ) (menu : List String) (used : List (ℤ × String))
    (hne : menu ≠ []) :
    ∀ (fuel : ℕ) (r : Rng) (s : String) (r2 : Rng),
      pickWRStat year menu used fuel r = (some s, r2) → s ∈ menu := by
  intro fuel
  induction fuel with
  | zero =>
    intro r s r2 h
    exact absurd h (by simp [pickWRStat])
  | succ n ih =>
    intro r s r2 h
    unfold pickWRStat at h
    dsimp only at h
    split_ifs at h with hm
    · exact ih _ s r2 h
    · have hs : (rchoice menu r).1 = s := by
        simpa using congrArg (fun p => p.1.getD "") h
      rw [← hs]
      exact rchoice_mem menu r hne

lemma mkMainQ_spec (slot : String) (year : ℤ) (dfs : Df4) (sel : String)
    (h1 : ¬ (dfs.2.1.isEmpty || !dfs.2.1.cols.contains "position") = true) :
    ((mkMainQ slot year dfs sel).data_issue = true ↔
      (dfs.2.1.isEmpty = true ∨ dfs.2.1.cols.contains "position" = false ∨
        ∀ s, (mkMainQ slot year dfs sel).stat_category = some s →
          leaderForSlot dfs.2.1 (rstrip12 slot) s = none)) ∧
    ((mkMainQ slot year dfs sel).data_issue = true →
      (mkMainQ slot year dfs sel).correct_player_id = none ∧
      (mkMainQ slot year dfs sel).correct_stat_value = none ∧
      ((mkMainQ slot year dfs sel).correct_player_name = Val.null ∨
       (mkMainQ slot year dfs sel).correct_player_name = Val.str "N/A")) ∧
    ((mkMainQ slot year dfs sel).stat_category = none ↔
      (dfs.2.1.isEmpty = true ∨ dfs.2.1.cols.contains "position" = false)) := by
  have hc1 : dfs.2.1.isEmpty = false := by
    cases hb : dfs.2.1.isEmpty
    · rfl
    · exact absurd (by rw [hb]; rfl) h1
  have hc2 : dfs.2.1.cols.contains "position" = true := by
    cases hb : dfs.2.1.cols.contains "position"
    · exact absurd (by rw [hb]; simp) h1
    · rfl
  refine ⟨⟨?_, ?_⟩, ?_, ?_⟩
  · intro hdi
    refine Or.inr (Or.inr (fun s hss => ?_))
    have hsel : sel = s := by simpa [mkMainQ] using hss
    subst hsel
    simpa [mkMainQ, Option.isNone_iff_eq_none] using hdi
  · intro hrhs
    rcases hrhs with h | h | h
    · rw [hc1] at h
      exact absurd h (by simp)
    · rw [hc2] at h
      exact absurd h (by simp)
    · have hnone := h sel (by simp [mkMainQ])
      simp [mkMainQ, hnone]
  · intro hdi
    have hnone : leaderForSlot dfs.2.1 (rstrip12 slot) sel = none := by
      simpa [mkMainQ, Option.isNone_iff_eq_none] using hdi
    exact ⟨by simp [mkMainQ, hnone], by simp [mkMainQ, hnone],
      Or.inr (by simp [mkMainQ, hnone])⟩
  · refine iff_of_false (by simp [mkMainQ]) (fun hr => ?_)
    rcases hr with h | h
    · rw [hc1] at h
      exact absurd h (by simp)
    · rw [hc2] at h
      exact absurd h (by simp)

/-- C4 (amended): a produced record has `data_issue` true exactly when the
dataset was missing/empty, the position column absent, or the leader
unresolvable for the chosen statistic; when true, the leader fields
(player id, stat value) are null and the name is null or the "N/A"
placeholder; the statistic category is null exactly in the
dataset-missing/position-absent branch, and otherwise — in particular
when only the leader was unresolvable — holds the selected statistic, a
member of the slot's fixed menu (game_logic.py lines 135-145, 150-173 and
196-206). -/
theorem claim4_data_issue_invariant (slot : String) (year : ℤ) (dfs : Df4)
    (r : Rng) (used : List (ℤ × String)) (q : Question)
    (hq : q ∈ (slotCore slot year dfs r used).qs) :
    (q.data_issue = true ↔
      (dfs.2.1.isEmpty = true ∨ dfs.2.1.cols.contains "position" = false ∨
        ∀ s, q.stat_category = some s →
          leaderForSlot dfs.2.1 (rstrip12 slot) s = none)) ∧
    (q.data_issue = true →
      q.correct_player_id = none ∧ q.correct_stat_value = none ∧
      (q.correct_player_name = Val.null ∨ q.correct_player_name = Val.str "N/A")) ∧
    (q.stat_category = none ↔
      (dfs.2.1.isEmpty = true ∨ dfs.2.1.cols.contains "position" = false)) ∧
    (∀ s, q.stat_category = some s →
      s ∈ alistGet STAT_CATEGORIES (rstrip12 slot)) := by
  unfold slotCore at hq
  dsimp only at hq
  split_ifs at hq with h1 h2 h3
  · simp at hq
    subst hq
    have hdisj : dfs.2.1.isEmpty = true ∨
        dfs.2.1.cols.contains "position" = false := by
      rcases (by simpa using h1 : dfs.2.1.isEmpty = true ∨
          ¬ dfs.2.1.cols.contains "position" = true) with h | h
      · exact Or.inl h
      · exact Or.inr (by simpa using h)
    refine ⟨⟨fun _ => ?_, fun _ => rfl⟩, fun _ => ⟨rfl, rfl, Or.inl rfl⟩,
      iff_of_true rfl hdisj, fun s hss => absurd hss (by simp [dataIssueQ])⟩
    rcases hdisj with h | h
    · exact Or.inl h
    · exact Or.inr (Or.inl h)
  · simp at hq
  · have hne : alistGet STAT_CATEGORIES (rstrip12 slot) ≠ [] :=
      fun hnil => h2 (by rw [hnil]; rfl)
    rcases hp : pickWRStat year (alistGet STAT_CATEGORIES (rstrip12 slot)) used
      (3 * (alistGet STAT_CATEGORIES (rstrip12 slot)).length) r with ⟨o, r2⟩
    rw [hp] at hq
    cases o with
    | some s0 =>
      simp at hq
      subst hq
      refine ⟨(mkMainQ_spec slot year dfs s0 h1).1,
        (mkMainQ_spec slot year dfs s0 h1).2.1,
        (mkMainQ_spec slot year dfs s0 h1).2.2, fun s hss => ?_⟩
      have hsel : s0 = s := by simpa [mkMainQ] using hss
      subst hsel
      exact pickWRStat_mem year _ used hne _ r s0 r2 hp
    | none =>
      simp at hq
      subst hq
      refine ⟨(mkMainQ_spec slot year dfs _ h1).1,
        (mkMainQ_spec slot year dfs _ h1).2.1,
        (mkMainQ_spec slot year dfs _ h1).2.2, fun s hss => ?_⟩
      have hsel : (rchoice (alistGet STAT_CATEGORIES (rstrip12 slot)) r2).1 = s := by
        simpa [mkMainQ] using hss
      rw [← hsel]
      exact rchoice_mem _ r2 hne
  · have hne : alistGet STAT_CATEGORIES (rstrip12 slot) ≠ [] :=
      fun hnil => h2 (by rw [hnil]; rfl)
    simp at hq
    subst hq
    refine ⟨(mkMainQ_spec slot year dfs _ h1).1,
      (mkMainQ_spec slot year dfs _ h1).2.1,
      (mkMainQ_spec slot year dfs _ h1).2.2, fun s hss => ?_⟩
    have hsel : (rchoice (alistGet STAT_CATEGORIES (rstrip12 slot)) r).1 = s := by
      simpa [mkMainQ] using hss
    rw [← hsel]
    exact rchoice_mem _ r hne

/-- C4 counterexample: in a concrete seeded round whose stats table has a
position column but no QB rows, the QB record has `data_issue = true`
while its statistic category holds the genuine menu entry "passing_tds" —
not a null/placeholder value as the claim requires of all value fields. -/
theorem claim4_counterexample :
    ((generate_questions_for_round mtW loaderW 2000 10 [] rngW true (some 1)).1.map
      (fun q => (q.data_issue, q.stat_category))).get? 0 =
      some (true, some "passing_tds") ∧
    (some "passing_tds" : Option String) ≠ none := ⟨by decide, by decide⟩

/-- Witness for C4 (amended) on the degraded-dataset branch. -/
theorem claim4_data_issue_invariant_witness :
    (dataIssueQ "QB" 5) ∈ (slotCore "QB" 5 emptyDf4 rngW []).qs ∧
    (((dataIssueQ "QB" 5).data_issue = true ↔
      ((emptyDf4 : Df4).2.1.isEmpty = true ∨
        (emptyDf4 : Df4).2.1.cols.contains "position" = false ∨
        ∀ s, (dataIssueQ "QB" 5).stat_category = some s →
          leaderForSlot (emptyDf4 : Df4).2.1 (rstrip12 "QB") s = none)) ∧
     ((dataIssueQ "QB" 5).data_issue = true →
       (dataIssueQ "QB" 5).correct_player_id = none ∧
       (dataIssueQ "QB" 5).correct_stat_value = none ∧
       ((dataIssueQ "QB" 5).correct_player_name = Val.null ∨
        (dataIssueQ "QB" 5).correct_player_name = Val.str "N/A")) ∧
     ((dataIssueQ "QB" 5).stat_category = none ↔
       ((emptyDf4 : Df4).2.1.isEmpty = true ∨
        (emptyDf4 : Df4).2.1.cols.contains "position" = false)) ∧
     (∀ s, (dataIssueQ "QB" 5).stat_category = some s →
       s ∈ alistGet STAT_CATEGORIES (rstrip12 "QB"))) := by
  have hq : (dataIssueQ "QB" 5) ∈ (slotCore "QB" 5 emptyDf4 rngW []).qs := by decide
  exact ⟨hq, claim4_data_issue_invariant "QB" 5 emptyDf4 rngW [] _ hq⟩

/-! ## Helper lemmas: eligibility -/

lemma dedupRows_map_nodup (key : Row → Val) :
    ∀ (rows : List Row) (seen : List Val),
      ((dedupRows key rows seen).map key).Nodup ∧
      ∀ v ∈ (dedupRows key rows seen).map key, v ∉ seen := by
  intro rows
  induction rows with
  | nil =>
    intro seen
    constructor <;> simp [dedupRows]
  | cons r rest ih =>
    intro seen
    unfold dedupRows
    split_ifs with hm
    · exact ih seen
    · constructor
      · simp only [List.map_cons]
        refine List.nodup_cons.mpr ⟨?_, (ih (key r :: seen)).1⟩
        intro hmem
        exact ((ih (key r :: seen)).2 _ hmem) (by simp)
      · intro v hv
        simp only [List.map_cons, List.mem_cons] at hv
        rcases hv with rfl | hv
        · exact hm
        · intro hseen
          exact (ih (key r :: seen)).2 v hv (by simp [hseen])

lemma valLe_trans :
    ∀ a b c : Val, valLe a b = true → valLe b c = true → valLe a c = true := by
  intro a b c
  cases a <;> cases b <;> cases c <;> simp [valLe] <;>
    exact fun h1 h2 => le_trans h1 h2

lemma valLe_total : ∀ a b : Val, (valLe a b || valLe b a) = true := by
  intro a b
  cases a <;> cases b <;> simp [valLe] <;> exact le_total _ _

/-- C9: the eligibility filter never returns a player id twice, returns
its list sorted by display name ascending (in the total cell order
`valLe`), never returns an empty sequence, and under any of the failure
conditions — no usable roster, missing columns, no roster rows for the
position, or no candidates surviving the merge-and-filter pipeline —
returns a single sentinel entry with a null id and a descriptive label
(game_logic.py lines 279-359). -/
theorem claim9_eligibility (l : Loader) (positionLabel : String) (year : ℤ)
    (cache : Cache) :
    (get_eligible_players_for_autocomplete l positionLabel year cache).1 ≠ [] ∧
    ((get_eligible_players_for_autocomplete l positionLabel year cache).1.map
      (fun p => p.2)).Nodup ∧
    (get_eligible_players_for_autocomplete l positionLabel year cache).1.Pairwise
      (fun a b => valLe a.1 b.1 = true) ∧
    (((get_data_for_year_cached l year cache).1.1.isEmpty = true ∨
      (get_data_for_year_cached l year cache).1.1.cols.contains "player_id" = false ∨
      (get_data_for_year_cached l year cache).1.1.cols.contains "position" = false ∨
      (get_data_for_year_cached l year cache).1.1.cols.contains "player_name" = false ∨
      (dfFilter (get_data_for_year_cached l year cache).1.1
        (fun r => rowGet r "position" = Val.str positionLabel)).isEmpty = true ∨
      (activeCandidates
        (dfFilter (get_data_for_year_cached l year cache).1.1
          (fun r => rowGet r "position" = Val.str positionLabel))
        (get_data_for_year_cached l year cache).1.2.1
        (get_data_for_year_cached l year cache).1.2.2.1 positionLabel).isEmpty = true) →
      ∃ m : String, (get_eligible_players_for_autocomplete l positionLabel year cache).1
        = [(Val.str m, Val.null)]) := by
  unfold get_eligible_players_for_autocomplete
  dsimp only
  split_ifs with g1 g2 g3 g4 g5
  · exact ⟨by simp, by simp, by simp, fun _ => ⟨_, rfl⟩⟩
  · exact ⟨by simp, by simp, by simp, fun _ => ⟨_, rfl⟩⟩
  · exact ⟨by simp, by simp, by simp, fun _ => ⟨_, rfl⟩⟩
  · exact ⟨by simp, by simp, by simp, fun _ => ⟨_, rfl⟩⟩
  · exact ⟨by simp, by simp, by simp, fun _ => ⟨_, rfl⟩⟩
  · dsimp only
    refine ⟨?_, ?_, ?_, ?_⟩
    · intro hnil
      exact g5 (by rw [hnil]; rfl)
    · rw [List.map_map]
      simp only [dfSortBy]
      exact ((List.mergeSort_perm _ _).map (fun r => rowGet r "player_id")).nodup_iff.mpr
        (dedupRows_map_nodup (fun r => rowGet r "player_id") _ []).1
    · simp only [dfSortBy]
      exact List.Pairwise.map _ (fun a b h => h)
        (@List.sorted_mergeSort Row
          (fun a b => valLe (rowGet a "player_name") (rowGet b "player_name"))
          (fun a b c h1 h2 => valLe_trans _ _ _ h1 h2)
          (fun a b => valLe_total _ _) _)
    · intro h
      rcases h with h | h | h | h | h | h
      · exact absurd (by rw [h]; rfl) g1
      · exact absurd (by rw [h]; simp) g1
      · exact absurd (by rw [h]; simp) g2
      · exact absurd (by rw [h]; simp) g2
      · exact absurd h g3
      · exact absurd h g4

/-- Witness for C9: against a loader whose roster lacks the position
column, the filter returns the single "Incomplete roster data" sentinel. -/
theorem claim9_eligibility_witness :
    (get_data_for_year_cached loaderW 2020 []).1.1.cols.contains "position" = false ∧
    (get_eligible_players_for_autocomplete loaderW "WR" 2020 []).1 ≠ [] ∧
    ∃ m : String, (get_eligible_players_for_autocomplete loaderW "WR" 2020 []).1
      = [(Val.str m, Val.null)] := by
  have hcond : (get_data_for_year_cached loaderW 2020 []).1.1.cols.contains
      "position" = false := by decide
  have h := claim9_eligibility loaderW "WR" 2020 []
  exact ⟨hcond, h.1, h.2.2.2 (Or.inr (Or.inr (Or.inl hcond)))⟩
